import Mathlib

set_option maxHeartbeats 1000000

/-! Shallow embedding of `libnmap/objects/os.py`: the OS fingerprint
reconciliation data model (`CPE`, `NmapOSMatch`, `NmapOSClass`,
`NmapOSFingerprint`) together with its construction and query operations.

Decoded XML dictionaries are modelled as structures whose fields are
`Option` values (`none` models an absent key).  Numeric fields (`line`,
`accuracy`) are modelled as integers; the source stores them raw and
coerces with `int()` in the accessors, and no claim concerns textual
coercion.  Python exceptions are modelled by the `PyError` type carried
through `Except`. -/

/-- Python exceptions raised by the embedded code: `exn` models an explicit
`raise Exception(msg)`, `keyError` a failed dictionary key lookup,
`typeError` and `attributeError` the corresponding Python built-in errors. -/
inductive PyError where
  | exn (msg : String)
  | keyError (key : String)
  | typeError (msg : String)
  | attributeError (msg : String)
deriving DecidableEq

/-- Boolean success test for `Except`. -/
def Except.isOkB {ε α : Type} : Except ε α → Bool
  | Except.ok _ => true
  | Except.error _ => false

/-- Boolean failure test for `Except`. -/
def Except.isErrorB {ε α : Type} : Except ε α → Bool
  | Except.ok _ => false
  | Except.error _ => true

/-- Contents of the inner `osclass` dictionary of a decoded class record;
`none` models an absent key. -/
structure OSClassData where
  vendor : Option String
  osfamily : Option String
  accuracy : Option Int
  osgen : Option String
  type : Option String
deriving DecidableEq

/-- The decoded record handed to `NmapOSClass.__init__`: the inner
`osclass` dictionary and the `cpe` list, either of which may be absent. -/
structure OSClassDict where
  osclass : Option OSClassData
  cpe : Option (List String)
deriving DecidableEq

/-- Contents of the inner `osmatch` dictionary of a decoded match record. -/
structure OSMatchData where
  name : Option String
  line : Option Int
  accuracy : Option Int
deriving DecidableEq

/-- The decoded record handed to `NmapOSMatch.__init__`: the inner
`osmatch` dictionary and the optional nested `osclasses` list. -/
structure OSMatchDict where
  osmatch : Option OSMatchData
  osclasses : Option (List OSClassDict)
deriving DecidableEq

/-- One entry of the decoded `osfingerprints` group; the `fingerprint`
text field may be absent. -/
structure OSFingerprintEntry where
  fingerprint : Option String
deriving DecidableEq

/-- The aggregate record handed to `NmapOSFingerprint.__init__`; each of
the four top-level groups may be absent. -/
structure OSFpData where
  osmatches : Option (List OSMatchDict)
  osclasses : Option (List OSClassDict)
  osfingerprints : Option (List OSFingerprintEntry)
  ports_used : Option (List String)
deriving DecidableEq

/-- The `CPE` leaf object: an opaque platform-identifier string. -/
structure CPE where
  cpestring : String
deriving DecidableEq

/-- A constructed `NmapOSClass` object (fields as stored by
`NmapOSClass.__init__`; absent `osgen`/`type` have been defaulted). -/
structure NmapOSClass where
  vendor : String
  osfamily : String
  accuracy : Int
  osgen : String
  type : String
  cpelist : List CPE
deriving DecidableEq

/-- A constructed `NmapOSMatch` object. -/
structure NmapOSMatch where
  name : String
  line : Int
  accuracy : Int
  osclasses : List NmapOSClass
deriving DecidableEq

/-- `NmapOSClass.__init__`.  It reads `osclass_dict['osclass']`
(a `KeyError` if absent), raises `Exception` when `vendor`, `osfamily`
or `accuracy` is missing, defaults `osgen` and `type` to the empty
string, and then unconditionally iterates `osclass_dict['cpe']`
(a `KeyError` if that key is absent). -/
def NmapOSClass.init (osclass_dict : OSClassDict) : Except PyError NmapOSClass :=
  match osclass_dict.osclass with
  | none => Except.error (PyError.keyError "osclass")
  | some _osclass =>
    match _osclass.vendor, _osclass.osfamily, _osclass.accuracy with
    | some v, some f, some a =>
      match osclass_dict.cpe with
      | none => Except.error (PyError.keyError "cpe")
      | some cpes =>
        Except.ok
          { vendor := v, osfamily := f, accuracy := a,
            osgen := _osclass.osgen.getD "", type := _osclass.type.getD "",
            cpelist := cpes.map CPE.mk }
    | _, _, _ => Except.error (PyError.exn "Wrong osclass structure: missing required key")

/-- The nested-class loop of `NmapOSMatch.__init__`: each entry is built
with `NmapOSClass.init` and appended in order; any failure is re-raised
as `Exception("Could not create NmapOSClass object")` (the inner bare
`except` swallows the original error). -/
def osclassesBuild : List OSClassDict → Except PyError (List NmapOSClass)
  | [] => Except.ok []
  | c :: rest =>
    match NmapOSClass.init c with
    | Except.error _ => Except.error (PyError.exn "Could not create NmapOSClass object")
    | Except.ok _osclassobj =>
      match osclassesBuild rest with
      | Except.error e => Except.error e
      | Except.ok tail => Except.ok (_osclassobj :: tail)

/-- `NmapOSMatch.__init__`.  It reads `osmatch_dict['osmatch']`, raises
`Exception` when `name`, `line` or `accuracy` is missing, then builds the
nested class list; a missing `osclasses` key is swallowed by the
`except KeyError: pass` and yields an empty list. -/
def NmapOSMatch.init (osmatch_dict : OSMatchDict) : Except PyError NmapOSMatch :=
  match osmatch_dict.osmatch with
  | none => Except.error (PyError.keyError "osmatch")
  | some _osmatch_dict =>
    match _osmatch_dict.name, _osmatch_dict.line, _osmatch_dict.accuracy with
    | some n, some l, some a =>
      match (match osmatch_dict.osclasses with
             | some lst => osclassesBuild lst
             | none => Except.ok []) with
      | Except.error e => Except.error e
      | Except.ok cls => Except.ok { name := n, line := l, accuracy := a, osclasses := cls }
    | _, _, _ => Except.error (PyError.exn "Cannot create NmapOSClass: missing required key")

/-- The argument shapes `NmapOSMatch.add_osclass` is called with: the
reconciler passes a constructed `NmapOSClass` object, while the method
body expects a dictionary. -/
inductive AddOsclassArg where
  | dict (class_dict : OSClassDict)
  | obj (osclass : NmapOSClass)
deriving DecidableEq

/-- `NmapOSMatch.add_osclass`.  Python evaluates `'osclass' in class_dict`:
for a dictionary this is a key-presence test, but for an `NmapOSClass`
instance (which implements no container protocol) the membership test
raises `TypeError`.  On the key-present branch Python then evaluates
`self.__osclasses`, which name-mangles to the attribute
`_NmapOSMatch__osclasses`; the constructor only ever assigns
`self._osclasses`, so the attribute does not exist and the access raises
`AttributeError`.  The key-absent branch raises the explicit
`Exception`. -/
def NmapOSMatch.add_osclass (_self : NmapOSMatch) (class_dict : AddOsclassArg) :
    Except PyError NmapOSMatch :=
  match class_dict with
  | AddOsclassArg.obj _ =>
    Except.error (PyError.typeError "argument of type NmapOSClass is not iterable")
  | AddOsclassArg.dict d =>
    if d.osclass.isSome then
      Except.error
        (PyError.attributeError "NmapOSMatch object has no attribute _NmapOSMatch__osclasses")
    else
      Except.error (PyError.exn "Cannot add: no osclass data in provided dict")

/-- The comparison performed by `NmapOSFingerprint.get_osmatch`: the code
compares `_osmatch.accuracy == accuracy`, but at the only call site the
`accuracy` parameter is in fact the whole `NmapOSClass` object
(`self.get_osmatch(_osclass_obj)`).  `int.__eq__` returns
`NotImplemented` for an `NmapOSClass` argument, `NmapOSClass` defines no
`__eq__`, so Python falls back to identity comparison between an `int`
and a distinct object: the result is always `False`. -/
def pyEqIntNmapOSClass (_i : Int) (_o : NmapOSClass) : Bool := false

/-- The scan loop of `NmapOSFingerprint.get_osmatch`, returning the index
of the first element whose `accuracy` compares equal to the argument (the
source returns the aliased object itself; the index lets the caller's
in-place mutation be modelled by `List.set`). -/
def getOsmatchLoop (accuracy : NmapOSClass) : List NmapOSMatch → Option Nat
  | [] => none
  | _osmatch :: rest =>
    if pyEqIntNmapOSClass _osmatch.accuracy accuracy then some 0
    else (getOsmatchLoop accuracy rest).map (· + 1)

/-- `NmapOSFingerprint.get_osmatch` over the current match list. -/
def NmapOSFingerprint.get_osmatch (osmatches : List NmapOSMatch) (accuracy : NmapOSClass) :
    Option Nat :=
  getOsmatchLoop accuracy osmatches

/-- `NmapOSFingerprint._add_dummy_osmatch`: builds the dummy dictionary
with name `"{type}:{vendor}:{osfamily}"`, the class accuracy, line `-1`
and an empty `osclasses` list, constructs an `NmapOSMatch` from it and
appends it to the match list.  Note that the orphan `NmapOSClass` object
itself is not placed inside the dummy match. -/
def NmapOSFingerprint.addDummyOsmatch (osmatches : List NmapOSMatch)
    (osclass_obj : NmapOSClass) : Except PyError (List NmapOSMatch) :=
  match NmapOSMatch.init
      { osmatch := some
          { name := some (osclass_obj.type ++ ":" ++ osclass_obj.vendor ++ ":" ++
              osclass_obj.osfamily),
            line := some (-1),
            accuracy := some osclass_obj.accuracy },
        osclasses := some [] } with
  | Except.error e => Except.error e
  | Except.ok _dummy_osmatch => Except.ok (osmatches ++ [_dummy_osmatch])

/-- The `osmatches` loop of `NmapOSFingerprint.__init__`: construct each
match record in order; any construction failure aborts. -/
def osmatchesPass : List OSMatchDict → Except PyError (List NmapOSMatch)
  | [] => Except.ok []
  | m :: rest =>
    match NmapOSMatch.init m with
    | Except.error e => Except.error e
    | Except.ok _osmatch_obj =>
      match osmatchesPass rest with
      | Except.error e => Except.error e
      | Except.ok tail => Except.ok (_osmatch_obj :: tail)

/-- The `osclasses` loop of `NmapOSFingerprint.__init__`: construct each
class record, look for an accuracy-equal match (`get_osmatch`), call
`add_osclass` on it when found, otherwise append a dummy match.  The
out-of-range index branch is unreachable because `get_osmatch` only
returns indices of elements it inspected. -/
def osclassesPass (osmatches : List NmapOSMatch) :
    List OSClassDict → Except PyError (List NmapOSMatch)
  | [] => Except.ok osmatches
  | c :: rest =>
    match NmapOSClass.init c with
    | Except.error e => Except.error e
    | Except.ok _osclass_obj =>
      match NmapOSFingerprint.get_osmatch osmatches _osclass_obj with
      | some i =>
        match osmatches.get? i with
        | none => osclassesPass osmatches rest
        | some _osmatched =>
          match _osmatched.add_osclass (AddOsclassArg.obj _osclass_obj) with
          | Except.error e => Except.error e
          | Except.ok m2 => osclassesPass (osmatches.set i m2) rest
      | none =>
        match NmapOSFingerprint.addDummyOsmatch osmatches _osclass_obj with
        | Except.error e => Except.error e
        | Except.ok osmatches2 => osclassesPass osmatches2 rest

/-- The `osfingerprints` loop of `NmapOSFingerprint.__init__`: entries
with a `fingerprint` field are appended in order; entries without one are
skipped. -/
def osfingerprintsPass : List OSFingerprintEntry → List String
  | [] => []
  | e :: rest =>
    match e.fingerprint with
    | some s => s :: osfingerprintsPass rest
    | none => osfingerprintsPass rest

/-- The reconciler's owned state after construction (the private
attributes `__osmatches`, `__ports_used`, `__fingerprints`). -/
structure NmapOSFingerprint where
  _osmatches : List NmapOSMatch
  _ports_used : List String
  _fingerprints : List String
deriving DecidableEq

/-- `NmapOSFingerprint.__init__`: the authoritative `osmatches` pass, the
legacy `osclasses` attribution pass, the `osfingerprints` pass and the
verbatim `ports_used` pass-through; an absent group skips its pass. -/
def NmapOSFingerprint.init (osfp_data : OSFpData) : Except PyError NmapOSFingerprint :=
  match (match osfp_data.osmatches with
         | some ms => osmatchesPass ms
         | none => Except.ok []) with
  | Except.error e => Except.error e
  | Except.ok auth =>
    match (match osfp_data.osclasses with
           | some cs => osclassesPass auth cs
           | none => Except.ok auth) with
    | Except.error e => Except.error e
    | Except.ok allMatches =>
      Except.ok
        { _osmatches := allMatches,
          _ports_used :=
            match osfp_data.ports_used with
            | some pl => pl
            | none => [],
          _fingerprints :=
            match osfp_data.osfingerprints with
            | some fl => osfingerprintsPass fl
            | none => [] }

/-- The filtering loop shared by the `osmatches` property body. -/
def osmatchesFilterLoop (min_accuracy : Int) : List NmapOSMatch → List NmapOSMatch
  | [] => []
  | _osmatch :: rest =>
    if _osmatch.accuracy ≥ min_accuracy then _osmatch :: osmatchesFilterLoop min_accuracy rest
    else osmatchesFilterLoop min_accuracy rest

/-- The body of the `osmatches` property, with its `min_accuracy`
parameter made explicit. -/
def NmapOSFingerprint.osmatches_fn (fp : NmapOSFingerprint) (min_accuracy : Int) :
    List NmapOSMatch :=
  osmatchesFilterLoop min_accuracy fp._osmatches

/-- The `osmatches` property as actually accessed: the getter receives no
argument, so `min_accuracy` is always its default `0`. -/
def NmapOSFingerprint.osmatches (fp : NmapOSFingerprint) : List NmapOSMatch :=
  fp.osmatches_fn 0

/-- The `fingerprint` property: `"\r\n".join(self.__fingerprints)`. -/
def NmapOSFingerprint.fingerprint (fp : NmapOSFingerprint) : String :=
  String.intercalate "\r\n" fp._fingerprints

/-- The `fingerprints` property: the stored probe list. -/
def NmapOSFingerprint.fingerprints (fp : NmapOSFingerprint) : List String :=
  fp._fingerprints

/-- Python semantics of calling a `list` value: `TypeError`.  Used to
model the call `self.osmatches()` inside `NmapOSFingerprint.osclass`,
where `osmatches` is a property whose value is a list. -/
def pyCallList {α : Type} (_f : List α) : Except PyError (List α) :=
  Except.error (PyError.typeError "list object is not callable")

/-- The flattened string built for each class by the deprecated
`osclass` filter (the source format string lacks a colon after
`osfamily`). -/
def osclassFmtLine (oclass : NmapOSClass) : String :=
  "type:" ++ oclass.type ++ "|vendor:" ++ oclass.vendor ++ "|osfamily" ++ oclass.osfamily

/-- The deprecated `NmapOSFingerprint.osclass(min_accuracy)` filter.  Its
body iterates `self.osmatches()`; since `osmatches` is a property, the
expression calls the property's value (a list), which raises `TypeError`
before any iteration.  The loop body that would run is kept after the
call.  The deprecation warning it emits first is a side effect outside
this embedding. -/
def NmapOSFingerprint.osclass (fp : NmapOSFingerprint) (min_accuracy : Int) :
    Except PyError (List String) :=
  match pyCallList fp.osmatches with
  | Except.error e => Except.error e
  | Except.ok entries =>
    Except.ok
      (((entries.filter (fun m => m.accuracy ≥ min_accuracy)).map
          (fun m => m.osclasses.map osclassFmtLine)).flatten)

/-- Specification-side description of "the ClassRecords constructed, in
order, from a list of raw class dicts", used to state the structural
round trip; it differs from `osclassesBuild` only in the error it
propagates. -/
def classRecordsOf : List OSClassDict → Except PyError (List NmapOSClass)
  | [] => Except.ok []
  | c :: rest =>
    match NmapOSClass.init c with
    | Except.error e => Except.error e
    | Except.ok obj =>
      match classRecordsOf rest with
      | Except.error e => Except.error e
      | Except.ok tail => Except.ok (obj :: tail)

/-! Helper lemmas about the embedded operations. -/

theorem getOsmatchLoop_eq_none (o : NmapOSClass) (l : List NmapOSMatch) :
    getOsmatchLoop o l = none := by
  induction l with
  | nil => rfl
  | cons m rest ih => simp [getOsmatchLoop, pyEqIntNmapOSClass, ih]

theorem get_osmatch_eq_none (ms : List NmapOSMatch) (o : NmapOSClass) :
    NmapOSFingerprint.get_osmatch ms o = none :=
  getOsmatchLoop_eq_none o ms

/-- The match object a dummy dictionary constructs to. -/
def dummyOsmatchOf (o : NmapOSClass) : NmapOSMatch :=
  { name := o.type ++ ":" ++ o.vendor ++ ":" ++ o.osfamily,
    line := -1, accuracy := o.accuracy, osclasses := [] }

theorem addDummyOsmatch_eq (ms : List NmapOSMatch) (o : NmapOSClass) :
    NmapOSFingerprint.addDummyOsmatch ms o = Except.ok (ms ++ [dummyOsmatchOf o]) := rfl

theorem osclassesPass_ok_append (cs : List OSClassDict) (ms res : List NmapOSMatch)
    (h : osclassesPass ms cs = Except.ok res) :
    ∃ extra, res = ms ++ extra ∧ ∀ m ∈ extra, m.line = -1 ∧ m.osclasses = [] := by
  induction cs generalizing ms with
  | nil =>
    simp only [osclassesPass, Except.ok.injEq] at h
    exact ⟨[], by simp [h], by simp⟩
  | cons c rest ih =>
    cases hc : NmapOSClass.init c with
    | error e => simp [osclassesPass, hc] at h
    | ok obj =>
      simp only [osclassesPass, hc, get_osmatch_eq_none, addDummyOsmatch_eq] at h
      obtain ⟨extra, hres, hall⟩ := ih (ms ++ [dummyOsmatchOf obj]) h
      refine ⟨dummyOsmatchOf obj :: extra, by simp [hres], ?_⟩
      intro m hm
      rcases List.mem_cons.mp hm with hm | hm
      · subst hm; exact ⟨rfl, rfl⟩
      · exact hall m hm

theorem osmatchesPass_error_of_mem (ms : List OSMatchDict) (md : OSMatchDict)
    (hm : md ∈ ms) (he : ∃ e, NmapOSMatch.init md = Except.error e) :
    ∃ e2, osmatchesPass ms = Except.error e2 := by
  induction ms with
  | nil => cases hm
  | cons a rest ih =>
    rcases List.mem_cons.mp hm with hm | hm
    · subst hm
      obtain ⟨e, he⟩ := he
      exact ⟨e, by simp [osmatchesPass, he]⟩
    · cases ha : NmapOSMatch.init a with
      | error e => exact ⟨e, by simp [osmatchesPass, ha]⟩
      | ok obj =>
        obtain ⟨e2, h2⟩ := ih hm
        exact ⟨e2, by simp [osmatchesPass, ha, h2]⟩

theorem osclassesPass_error_of_mem (cs : List OSClassDict) (cd : OSClassDict)
    (hm : cd ∈ cs) (he : ∃ e, NmapOSClass.init cd = Except.error e) :
    ∀ ms, ∃ e2, osclassesPass ms cs = Except.error e2 := by
  induction cs with
  | nil => cases hm
  | cons a rest ih =>
    intro ms
    rcases List.mem_cons.mp hm with hm | hm
    · subst hm
      obtain ⟨e, he⟩ := he
      exact ⟨e, by simp [osclassesPass, he]⟩
    · cases ha : NmapOSClass.init a with
      | error e => exact ⟨e, by simp [osclassesPass, ha]⟩
      | ok obj =>
        obtain ⟨e2, h2⟩ := ih hm (ms ++ [dummyOsmatchOf obj])
        exact ⟨e2, by simp [osclassesPass, ha, get_osmatch_eq_none, addDummyOsmatch_eq, h2]⟩

theorem classRecordsOf_of_osclassesBuild (cs : List OSClassDict) (l : List NmapOSClass)
    (h : osclassesBuild cs = Except.ok l) : classRecordsOf cs = Except.ok l := by
  induction cs generalizing l with
  | nil => simpa [osclassesBuild, classRecordsOf] using h
  | cons c rest ih =>
    cases hc : NmapOSClass.init c with
    | error e => simp [osclassesBuild, hc] at h
    | ok obj =>
      cases hr : osclassesBuild rest with
      | error e => simp [osclassesBuild, hc, hr] at h
      | ok tail =>
        simp only [osclassesBuild, hc, hr, Except.ok.injEq] at h
        simp [classRecordsOf, hc, ih tail hr, ← h]

theorem osclassesBuild_error_of_mem (cs : List OSClassDict) (c : OSClassDict)
    (hm : c ∈ cs) (he : ∃ e, NmapOSClass.init c = Except.error e) :
    ∃ e2, osclassesBuild cs = Except.error e2 := by
  induction cs with
  | nil => cases hm
  | cons a rest ih =>
    rcases List.mem_cons.mp hm with hm | hm
    · subst hm
      obtain ⟨e, he⟩ := he
      exact ⟨PyError.exn "Could not create NmapOSClass object", by simp [osclassesBuild, he]⟩
    · cases ha : NmapOSClass.init a with
      | error e =>
        exact ⟨PyError.exn "Could not create NmapOSClass object", by simp [osclassesBuild, ha]⟩
      | ok obj =>
        obtain ⟨e2, h2⟩ := ih hm
        exact ⟨e2, by simp [osclassesBuild, ha, h2]⟩

theorem NmapOSFingerprint.init_ok_elim (d : OSFpData) (r : NmapOSFingerprint)
    (h : NmapOSFingerprint.init d = Except.ok r) :
    ∃ auth,
      (match d.osmatches with
       | some ms => osmatchesPass ms
       | none => Except.ok []) = Except.ok auth ∧
      (match d.osclasses with
       | some cs => osclassesPass auth cs
       | none => Except.ok auth) = Except.ok r._osmatches ∧
      r._ports_used = (match d.ports_used with | some pl => pl | none => []) ∧
      r._fingerprints =
        (match d.osfingerprints with | some fl => osfingerprintsPass fl | none => []) := by
  cases h1 : (match d.osmatches with
              | some ms => osmatchesPass ms
              | none => Except.ok []) with
  | error e => simp [NmapOSFingerprint.init, h1] at h
  | ok auth =>
    cases h2 : (match d.osclasses with
                | some cs => osclassesPass auth cs
                | none => Except.ok auth) with
    | error e => simp [NmapOSFingerprint.init, h1, h2] at h
    | ok allMatches =>
      simp only [NmapOSFingerprint.init, h1, h2, Except.ok.injEq] at h
      exact ⟨auth, rfl, by simp [h2, ← h], by simp [← h], by simp [← h]⟩

theorem osfingerprintsPass_eq_filterMap (l : List OSFingerprintEntry) :
    osfingerprintsPass l = l.filterMap (fun e => e.fingerprint) := by
  induction l with
  | nil => rfl
  | cons e rest ih =>
    cases hf : e.fingerprint with
    | none => simp [osfingerprintsPass, List.filterMap_cons, hf, ih]
    | some s => simp [osfingerprintsPass, List.filterMap_cons, hf, ih]

theorem osmatchesFilterLoop_eq_filter (x : Int) (l : List NmapOSMatch) :
    osmatchesFilterLoop x l = l.filter (fun m => decide (x ≤ m.accuracy)) := by
  induction l with
  | nil => rfl
  | cons m rest ih =>
    by_cases h : x ≤ m.accuracy <;>
      simp [osmatchesFilterLoop, List.filter_cons, h, ih, ge_iff_le]

/-! Concrete records used by the claim theorems and witnesses. -/

/-- A decoded authoritative match record: name "Linux 3.x", line 12,
accuracy 95, no nested classes. -/
def linuxMatchDict : OSMatchDict :=
  { osmatch := some { name := some "Linux 3.x", line := some 12, accuracy := some 95 },
    osclasses := none }

/-- A decoded legacy class record with accuracy 95 (equal to the
authoritative match above) and an empty cpe list. -/
def linuxClassDict : OSClassDict :=
  { osclass := some
      { vendor := some "Linux", osfamily := some "Linux", accuracy := some 95,
        osgen := none, type := some "general purpose" },
    cpe := some [] }

/-- A decoded legacy class record with accuracy 70 (matching no
authoritative match). -/
def ciscoClassDict : OSClassDict :=
  { osclass := some
      { vendor := some "Cisco", osfamily := some "IOS", accuracy := some 70,
        osgen := none, type := some "router" },
    cpe := some [] }

/-- The reconciler input of the accuracy-equal attribution scenario. -/
def c1_input : OSFpData :=
  { osmatches := some [linuxMatchDict], osclasses := some [linuxClassDict],
    osfingerprints := none, ports_used := none }

/-- The reconciler input of the no-accuracy-equal scenario. -/
def c2_input : OSFpData :=
  { osmatches := some [linuxMatchDict], osclasses := some [ciscoClassDict],
    osfingerprints := none, ports_used := none }

/-- C1: the claim says an orphan class record whose accuracy equals exactly
one authoritative match's accuracy is attached to that match and no
synthetic placeholder is created.  Evaluating the code on such an input
shows the opposite: `get_osmatch` compares the integer accuracy against
the `NmapOSClass` object itself, the comparison is always false, so the
class is attached to nothing and a synthetic `line = -1` match is
appended; the authoritative match keeps zero classes. -/
theorem c1_orphan_class_never_attributed :
    (NmapOSFingerprint.init c1_input).map
        (fun r => r._osmatches.map (fun m => (m.name, m.line, m.accuracy, m.osclasses.length)))
      = Except.ok [("Linux 3.x", 12, 95, 0), ("general purpose:Linux:Linux", -1, 95, 0)] := by
  rfl

/-- C2: the claim says the synthetic placeholder match appended for an
unattributable orphan class carries exactly that one ClassRecord.
Evaluating the code shows the derived name, accuracy and `line = -1` are
as claimed, but the placeholder's class list is empty:
`_add_dummy_osmatch` builds the dummy dictionary with `'osclasses': []`
and never appends the orphan class object to it. -/
theorem c2_dummy_osmatch_drops_class :
    (NmapOSFingerprint.init c2_input).map
        (fun r => r._osmatches.map (fun m => (m.name, m.line, m.accuracy, m.osclasses)))
      = Except.ok [("Linux 3.x", 12, 95, []), ("router:Cisco:IOS", -1, 70, [])] := by
  rfl

/-- A constructed authoritative match object. -/
def linuxMatchObj : NmapOSMatch :=
  { name := "Linux 3.x", line := 12, accuracy := 95, osclasses := [] }

/-- A constructed class record object. -/
def ciscoClassObj : NmapOSClass :=
  { vendor := "Cisco", osfamily := "IOS", accuracy := 70, osgen := "", type := "router",
    cpelist := [] }

/-- C8: the claim says `add_osclass` appends a pre-built ClassRecord and
only fails (with ValidationError) on a record lacking class data.
Evaluating the code: with a pre-built `NmapOSClass` object the membership
test `'osclass' in class_dict` raises `TypeError`; with a dictionary that
does carry the `osclass` key the body evaluates the name-mangled, never
assigned attribute `self.__osclasses` and raises `AttributeError`; only
the missing-class-data branch raises the documented `Exception`.  The
method never appends anything. -/
theorem c8_add_osclass_never_appends :
    linuxMatchObj.add_osclass (AddOsclassArg.obj ciscoClassObj)
      = Except.error (PyError.typeError "argument of type NmapOSClass is not iterable") ∧
    linuxMatchObj.add_osclass (AddOsclassArg.dict ciscoClassDict)
      = Except.error
          (PyError.attributeError "NmapOSMatch object has no attribute _NmapOSMatch__osclasses") ∧
    linuxMatchObj.add_osclass (AddOsclassArg.dict { osclass := none, cpe := none })
      = Except.error (PyError.exn "Cannot add: no osclass data in provided dict") :=
  ⟨rfl, rfl, rfl⟩

/-- C10: the deprecated `osclass(min_accuracy)` filter never returns a
result: its body iterates `self.osmatches()`, and since `osmatches` is a
property whose value is a list, the call expression raises `TypeError` on
every invocation, for every reconciler state and every threshold. -/
theorem c10_osclass_always_type_error (fp : NmapOSFingerprint) (min_accuracy : Int) :
    fp.osclass min_accuracy
      = Except.error (PyError.typeError "list object is not callable") := rfl

/-- C4: `osmatches(min_accuracy = X)` returns exactly the subsequence of
the full stored match list (authoritative then synthetic, in order) whose
accuracy is at least X; the property access uses the default 0; with all
accuracies nonnegative the default returns the full list, and a threshold
above every accuracy returns the empty list. -/
theorem c4_osmatches_minAccuracy (fp : NmapOSFingerprint) (x : Int) :
    fp.osmatches_fn x = fp._osmatches.filter (fun m => decide (x ≤ m.accuracy)) ∧
    fp.osmatches = fp.osmatches_fn 0 ∧
    ((∀ m ∈ fp._osmatches, 0 ≤ m.accuracy) → fp.osmatches_fn 0 = fp._osmatches) ∧
    ((∀ m ∈ fp._osmatches, m.accuracy < x) → fp.osmatches_fn x = []) := by
  refine ⟨osmatchesFilterLoop_eq_filter x fp._osmatches, rfl, ?_, ?_⟩
  · intro h
    rw [NmapOSFingerprint.osmatches_fn, osmatchesFilterLoop_eq_filter]
    exact List.filter_eq_self.mpr (fun m hm => by simpa using h m hm)
  · intro h
    rw [NmapOSFingerprint.osmatches_fn, osmatchesFilterLoop_eq_filter]
    rw [List.filter_eq_nil_iff]
    intro m hm
    simpa using not_le.mpr (h m hm)

/-- A reconciler state with a single stored match of accuracy 95. -/
def c4_fp : NmapOSFingerprint :=
  { _osmatches := [{ name := "Linux 3.x", line := 12, accuracy := 95, osclasses := [] }],
    _ports_used := [], _fingerprints := [] }

/-- Witness for C4 at a concrete state: threshold 0 returns the full list
and threshold 100 returns the empty list. -/
theorem c4_osmatches_minAccuracy_witness :
    c4_fp.osmatches_fn 0 = c4_fp._osmatches ∧ c4_fp.osmatches_fn 100 = [] :=
  ⟨(c4_osmatches_minAccuracy c4_fp 0).2.2.1 (by decide),
   (c4_osmatches_minAccuracy c4_fp 100).2.2.2 (by decide)⟩

/-- C7: the probes list of a successfully constructed reconciler equals,
in input order, the `fingerprint` fields of the `osfingerprints` entries
that carry one (entries lacking the field are skipped); the
`fingerprints` property returns that stored sequence and the
`fingerprint` property returns its elements joined with the report line
separator `"\r\n"`. -/
theorem c7_probes (d : OSFpData) (r : NmapOSFingerprint)
    (h : NmapOSFingerprint.init d = Except.ok r) :
    r._fingerprints = (d.osfingerprints.getD []).filterMap (fun e => e.fingerprint) ∧
    r.fingerprints = r._fingerprints ∧
    r.fingerprint =
      String.intercalate "\r\n" ((d.osfingerprints.getD []).filterMap (fun e => e.fingerprint)) := by
  obtain ⟨auth, _, _, _, hf⟩ := NmapOSFingerprint.init_ok_elim d r h
  have hfp : r._fingerprints = (d.osfingerprints.getD []).filterMap (fun e => e.fingerprint) := by
    cases hd : d.osfingerprints with
    | none => simpa [hd] using hf
    | some fl => rw [hd] at hf; simpa [hd, osfingerprintsPass_eq_filterMap] using hf
  exact ⟨hfp, rfl, by rw [NmapOSFingerprint.fingerprint, hfp]⟩

/-- A reconciler input whose `osfingerprints` group has two entries with
probe text and one without. -/
def c7_input : OSFpData :=
  { osmatches := none, osclasses := none,
    osfingerprints := some
      [{ fingerprint := some "OS:Linux" }, { fingerprint := none },
       { fingerprint := some "OPS()" }],
    ports_used := none }

/-- The reconciler state `c7_input` constructs to. -/
def c7_result : NmapOSFingerprint :=
  { _osmatches := [], _ports_used := [], _fingerprints := ["OS:Linux", "OPS()"] }

/-- Witness for C7 at a concrete input: the entry without a `fingerprint`
field is skipped and the join uses `"\r\n"`. -/
theorem c7_probes_witness :
    c7_result._fingerprints = ["OS:Linux", "OPS()"] ∧
    c7_result.fingerprint = "OS:Linux\r\nOPS()" := by
  have h := c7_probes c7_input c7_result rfl
  exact ⟨h.1.trans (by rfl), h.2.2.trans (by rfl)⟩

/-- C9: `NmapOSClass.__init__` reads the `cpe` key unconditionally, so a
class record whose required fields vendor, osfamily and accuracy are all
present but whose `cpe` key is absent still fails, with a missing-key
error (`KeyError`, a different constructor than the `exn` raised for
missing required fields); with the key present an empty identifier list
is accepted. -/
theorem c9_cpe_key_required (cd : OSClassData) (h1 : cd.vendor.isSome)
    (h2 : cd.osfamily.isSome) (h3 : cd.accuracy.isSome) :
    NmapOSClass.init { osclass := some cd, cpe := none }
      = Except.error (PyError.keyError "cpe") ∧
    (NmapOSClass.init { osclass := some cd, cpe := some [] }).isOkB = true := by
  obtain ⟨ven, fam, acc, g, t⟩ := cd
  cases ven with
  | none => simp at h1
  | some v =>
    cases fam with
    | none => simp at h2
    | some f =>
      cases acc with
      | none => simp at h3
      | some a => exact ⟨rfl, rfl⟩

/-- A class record with all required fields present. -/
def c9_classData : OSClassData :=
  { vendor := some "Cisco", osfamily := some "IOS", accuracy := some 70,
    osgen := none, type := some "router" }

/-- Witness for C9 at a concrete record. -/
theorem c9_cpe_key_required_witness :
    NmapOSClass.init { osclass := some c9_classData, cpe := none }
      = Except.error (PyError.keyError "cpe") ∧
    (NmapOSClass.init { osclass := some c9_classData, cpe := some [] }).isOkB = true :=
  c9_cpe_key_required c9_classData rfl rfl rfl

/-- C5: a reconciled authoritative MatchRecord's class list equals,
element for element and in order, the ClassRecords constructed from its
originally nested class records; a construction failure of any nested
class record fails the whole MatchRecord construction; and the
authoritative matches appear unchanged as a prefix of the reconciler's
final match list (the legacy attribution pass only ever appends). -/
theorem c5_nested_class_roundtrip (md : OSMatchDict) (cs : List OSClassDict)
    (h : md.osclasses = some cs) :
    (∀ r, NmapOSMatch.init md = Except.ok r → classRecordsOf cs = Except.ok r.osclasses) ∧
    ((∃ c ∈ cs, ∃ e, NmapOSClass.init c = Except.error e) →
      ∃ e2, NmapOSMatch.init md = Except.error e2) ∧
    (∀ (d : OSFpData) (ms : List OSMatchDict) (auth : List NmapOSMatch)
        (fp : NmapOSFingerprint),
      d.osmatches = some ms → osmatchesPass ms = Except.ok auth →
      NmapOSFingerprint.init d = Except.ok fp →
      ∃ extra, fp._osmatches = auth ++ extra) := by
  refine ⟨?_, ?_, ?_⟩
  · intro r hr
    cases hmd : md.osmatch with
    | none => simp [NmapOSMatch.init, hmd] at hr
    | some dd =>
      cases hn : dd.name with
      | none => simp [NmapOSMatch.init, hmd, hn] at hr
      | some n =>
        cases hl : dd.line with
        | none => simp [NmapOSMatch.init, hmd, hn, hl] at hr
        | some l =>
          cases ha : dd.accuracy with
          | none => simp [NmapOSMatch.init, hmd, hn, hl, ha] at hr
          | some a =>
            cases hb : osclassesBuild cs with
            | error e => simp [NmapOSMatch.init, hmd, hn, hl, ha, h, hb] at hr
            | ok cls =>
              simp only [NmapOSMatch.init, hmd, hn, hl, ha, h, hb, Except.ok.injEq] at hr
              rw [← hr]
              exact classRecordsOf_of_osclassesBuild cs cls hb
  · rintro ⟨c, hc, he⟩
    obtain ⟨e2, hb⟩ := osclassesBuild_error_of_mem cs c hc he
    cases hmd : md.osmatch with
    | none => exact ⟨PyError.keyError "osmatch", by simp [NmapOSMatch.init, hmd]⟩
    | some dd =>
      cases hn : dd.name with
      | none =>
        exact ⟨PyError.exn "Cannot create NmapOSClass: missing required key",
          by simp [NmapOSMatch.init, hmd, hn]⟩
      | some n =>
        cases hl : dd.line with
        | none =>
          exact ⟨PyError.exn "Cannot create NmapOSClass: missing required key",
            by simp [NmapOSMatch.init, hmd, hn, hl]⟩
        | some l =>
          cases ha : dd.accuracy with
          | none =>
            exact ⟨PyError.exn "Cannot create NmapOSClass: missing required key",
              by simp [NmapOSMatch.init, hmd, hn, hl, ha]⟩
          | some a =>
            exact ⟨e2, by simp [NmapOSMatch.init, hmd, hn, hl, ha, h, hb]⟩
  · intro d ms auth fp hdm hpass hr
    obtain ⟨auth0, h1, h2, _, _⟩ := NmapOSFingerprint.init_ok_elim d fp hr
    simp only [hdm] at h1
    rw [hpass] at h1
    injection h1 with h1
    subst h1
    cases hdc : d.osclasses with
    | none =>
      simp only [hdc] at h2
      injection h2 with h2
      exact ⟨[], h2.symm.trans (by simp)⟩
    | some cs2 =>
      simp only [hdc] at h2
      obtain ⟨extra, hres, _⟩ := osclassesPass_ok_append cs2 auth fp._osmatches h2
      exact ⟨extra, hres⟩

/-- A decoded match record carrying one nested class record. -/
def c5_matchDict : OSMatchDict :=
  { osmatch := some { name := some "Linux 3.x", line := some 12, accuracy := some 95 },
    osclasses := some [linuxClassDict] }

/-- The class object `linuxClassDict` constructs to. -/
def linuxClassObj : NmapOSClass :=
  { vendor := "Linux", osfamily := "Linux", accuracy := 95, osgen := "",
    type := "general purpose", cpelist := [] }

/-- The match object `c5_matchDict` constructs to. -/
def c5_result : NmapOSMatch :=
  { name := "Linux 3.x", line := 12, accuracy := 95, osclasses := [linuxClassObj] }

/-- Witness for C5 at a concrete match record with one nested class. -/
theorem c5_nested_class_roundtrip_witness :
    classRecordsOf [linuxClassDict] = Except.ok [linuxClassObj] :=
  (c5_nested_class_roundtrip c5_matchDict [linuxClassDict] rfl).1 c5_result rfl

/-- A class record with every required field present but no `cpe` key. -/
def c3_classData : OSClassData :=
  { vendor := some "Linux", osfamily := some "Linux", accuracy := some 95,
    osgen := none, type := none }

/-- The decoded class dictionary around `c3_classData`, lacking `cpe`. -/
def c3_classDict : OSClassDict := { osclass := some c3_classData, cpe := none }

/-- A reconciler input whose only record is `c3_classDict`. -/
def c3_input : OSFpData :=
  { osmatches := none, osclasses := some [c3_classDict],
    osfingerprints := none, ports_used := none }

/-- C3 counterexample: the claim says construction fails exactly when one
of the enumerated required fields is absent, yet here vendor, osfamily
and accuracy are all present and reconciler construction still fails —
and with a missing-key error for `cpe`, not the ValidationError the
claim names. -/
theorem c3_counterexample :
    (c3_classData.vendor.isSome ∧ c3_classData.osfamily.isSome ∧
      c3_classData.accuracy.isSome) ∧
    NmapOSFingerprint.init c3_input = Except.error (PyError.keyError "cpe") :=
  ⟨⟨rfl, rfl, rfl⟩, rfl⟩

/-- C3 amended: construction fails with ValidationError when a required
field is absent (match record: name, line or accuracy; class record:
vendor, osfamily or accuracy); a class record additionally fails with a
missing-key error when its `cpe` key is absent even though every required
field is present; it succeeds — with empty-string defaults — when a class
record omits only generation or type (its `cpe` key being present); and
any failing contained record makes the whole reconciler construction
fail, with no partial result. -/
theorem c3_validation :
    (∀ md : OSMatchData,
      ((md.name.isSome ∧ md.line.isSome ∧ md.accuracy.isSome) →
        (NmapOSMatch.init { osmatch := some md, osclasses := none }).isOkB = true) ∧
      (¬(md.name.isSome ∧ md.line.isSome ∧ md.accuracy.isSome) →
        NmapOSMatch.init { osmatch := some md, osclasses := none }
          = Except.error (PyError.exn "Cannot create NmapOSClass: missing required key"))) ∧
    (∀ (cd : OSClassData) (cpes : List String),
      (¬(cd.vendor.isSome ∧ cd.osfamily.isSome ∧ cd.accuracy.isSome) →
        NmapOSClass.init { osclass := some cd, cpe := some cpes }
          = Except.error (PyError.exn "Wrong osclass structure: missing required key")) ∧
      ((cd.vendor.isSome ∧ cd.osfamily.isSome ∧ cd.accuracy.isSome) →
        (NmapOSClass.init { osclass := some cd, cpe := some cpes }).isOkB = true) ∧
      ((cd.vendor.isSome ∧ cd.osfamily.isSome ∧ cd.accuracy.isSome) → cd.osgen = none →
        cd.type = none →
        ∃ r, NmapOSClass.init { osclass := some cd, cpe := some cpes } = Except.ok r ∧
          r.osgen = "" ∧ r.type = "")) ∧
    (∀ cd : OSClassData, cd.vendor.isSome → cd.osfamily.isSome → cd.accuracy.isSome →
      NmapOSClass.init { osclass := some cd, cpe := none }
        = Except.error (PyError.keyError "cpe")) ∧
    (∀ (d : OSFpData) (ms : List OSMatchDict) (md : OSMatchDict),
      d.osmatches = some ms → md ∈ ms → (∃ e, NmapOSMatch.init md = Except.error e) →
      ∃ e2, NmapOSFingerprint.init d = Except.error e2) ∧
    (∀ (d : OSFpData) (cs : List OSClassDict) (cd : OSClassDict),
      d.osclasses = some cs → cd ∈ cs → (∃ e, NmapOSClass.init cd = Except.error e) →
      ∃ e2, NmapOSFingerprint.init d = Except.error e2) := by
  refine ⟨?_, ?_, ?_, ?_, ?_⟩
  · intro md
    obtain ⟨n, l, a⟩ := md
    constructor
    · rintro ⟨h1, h2, h3⟩
      cases n with
      | none => simp at h1
      | some nv =>
        cases l with
        | none => simp at h2
        | some lv =>
          cases a with
          | none => simp at h3
          | some av => rfl
    · intro hn
      cases n <;> cases l <;> cases a <;>
        simp_all [NmapOSMatch.init, osclassesBuild]
  · intro cd cpes
    obtain ⟨ven, fam, acc, g, t⟩ := cd
    refine ⟨?_, ?_, ?_⟩
    · intro hn
      cases ven <;> cases fam <;> cases acc <;> simp_all [NmapOSClass.init]
    · rintro ⟨h1, h2, h3⟩
      cases ven with
      | none => simp at h1
      | some v =>
        cases fam with
        | none => simp at h2
        | some f =>
          cases acc with
          | none => simp at h3
          | some a => rfl
    · rintro ⟨h1, h2, h3⟩ hg ht
      cases ven with
      | none => simp at h1
      | some v =>
        cases fam with
        | none => simp at h2
        | some f =>
          cases acc with
          | none => simp at h3
          | some a =>
            simp only at hg ht
            subst hg
            subst ht
            exact ⟨_, rfl, rfl, rfl⟩
  · intro cd h1 h2 h3
    obtain ⟨ven, fam, acc, g, t⟩ := cd
    cases ven with
    | none => simp at h1
    | some v =>
      cases fam with
      | none => simp at h2
      | some f =>
        cases acc with
        | none => simp at h3
        | some a => rfl
  · intro d ms md hdm hmem he
    obtain ⟨e2, hp⟩ := osmatchesPass_error_of_mem ms md hmem he
    exact ⟨e2, by simp [NmapOSFingerprint.init, hdm, hp]⟩
  · intro d cs cd hdc hmem he
    cases h1 : (match d.osmatches with
                | some ms => osmatchesPass ms
                | none => Except.ok []) with
    | error e => exact ⟨e, by simp [NmapOSFingerprint.init, h1]⟩
    | ok auth =>
      obtain ⟨e2, hp⟩ := osclassesPass_error_of_mem cs cd hmem he auth
      exact ⟨e2, by simp [NmapOSFingerprint.init, h1, hdc, hp]⟩

/-- Witness for C3 at concrete records: a match record missing `name`
fails with the ValidationError message, and a class record with all
required fields but no `cpe` key fails with the missing-key error. -/
theorem c3_validation_witness :
    NmapOSMatch.init
        { osmatch := some { name := none, line := some 12, accuracy := some 95 },
          osclasses := none }
      = Except.error (PyError.exn "Cannot create NmapOSClass: missing required key") ∧
    NmapOSClass.init { osclass := some c3_classData, cpe := none }
      = Except.error (PyError.keyError "cpe") :=
  ⟨(c3_validation.1 _).2 (by simp),
   c3_validation.2.2.1 c3_classData rfl rfl rfl⟩

/-- A reconciler input with the `osmatches` group entirely absent but one
well-formed legacy class record present. -/
def c6_input : OSFpData :=
  { osmatches := none, osclasses := some [ciscoClassDict],
    osfingerprints := none, ports_used := none }

/-- C6 counterexample: the claim says that whenever an optional top-level
group is entirely absent the corresponding result collection is empty.
Here the `osmatches` group is absent, construction succeeds, and the
match collection nonetheless holds one element (the synthetic placeholder
built for the orphan class). -/
theorem c6_counterexample :
    c6_input.osmatches = none ∧
    (NmapOSFingerprint.init c6_input).map (fun r => r._osmatches.length)
      = Except.ok 1 :=
  ⟨rfl, rfl⟩

/-- The reconciler input with every optional group absent. -/
def c6_emptyInput : OSFpData :=
  { osmatches := none, osclasses := none, osfingerprints := none, ports_used := none }

/-- The reconciler state `c6_emptyInput` constructs to. -/
def c6_emptyFp : NmapOSFingerprint :=
  { _osmatches := [], _ports_used := [], _fingerprints := [] }

/-- C6 amended: absence of a whole optional group never by itself raises
an error.  With every group absent, construction succeeds and every
result collection is empty.  In any successful construction: an absent
`osfingerprints` group gives an empty probes list, an absent `ports_used`
group gives an empty ports list, an absent `osclasses` group leaves the
match list exactly the authoritative matches, and with an absent
`osmatches` group every match in the result is a synthetic placeholder
(`line = -1`) — the match list itself need not be empty. -/
theorem c6_absent_groups :
    NmapOSFingerprint.init c6_emptyInput = Except.ok c6_emptyFp ∧
    (∀ (d : OSFpData) (r : NmapOSFingerprint), NmapOSFingerprint.init d = Except.ok r →
      (d.osfingerprints = none → r._fingerprints = []) ∧
      (d.ports_used = none → r._ports_used = []) ∧
      (d.osclasses = none →
        (match d.osmatches with
         | some ms => osmatchesPass ms
         | none => Except.ok []) = Except.ok r._osmatches) ∧
      (d.osmatches = none → ∀ m ∈ r._osmatches, m.line = -1 ∧ m.osclasses = [])) := by
  refine ⟨rfl, ?_⟩
  intro d r hr
  obtain ⟨auth, h1, h2, hports, hfps⟩ := NmapOSFingerprint.init_ok_elim d r hr
  refine ⟨?_, ?_, ?_, ?_⟩
  · intro hd
    simpa [hd] using hfps
  · intro hd
    simpa [hd] using hports
  · intro hd
    simp only [hd] at h2
    injection h2 with h2
    rw [← h2]
    exact h1
  · intro hd m hm
    simp only [hd] at h1
    injection h1 with h1
    subst h1
    cases hdc : d.osclasses with
    | none =>
      simp only [hdc] at h2
      injection h2 with h2
      rw [← h2] at hm
      cases hm
    | some cs =>
      simp only [hdc] at h2
      obtain ⟨extra, hres, hall⟩ := osclassesPass_ok_append cs [] r._osmatches h2
      rw [hres] at hm
      exact hall m (by simpa using hm)

/-- Witness for C6 at the all-absent input. -/
theorem c6_absent_groups_witness :
    c6_emptyFp._fingerprints = [] ∧ c6_emptyFp._ports_used = [] :=
  ⟨(c6_absent_groups.2 c6_emptyInput c6_emptyFp rfl).1 rfl,
   (c6_absent_groups.2 c6_emptyInput c6_emptyFp rfl).2.1 rfl⟩
